import Mathlib

/-!
Verification of the transcript-acquisition service in `src/main.py`.

The development shallowly embeds the core components of the program:

* `fetch_with_retry` (main.py 476-498): the retry executor;
* `cache_get` / `cache_set` (main.py 101-110, 149-151): the success cache;
* `fail_cache_get` / `fail_cache_set` (main.py 153-168): the failure cache;
* `_normalize_durations` (main.py 176-212): the duration normalizer;
* `fetch_transcript_segments` (main.py 505-622): the tiered selector;
* `transcript` (main.py 629-767): the `/transcript` route.

Python floats are modelled as rationals, Python `None`-or-value results as
`Option`, raising code as `Except`.  External collaborators (the caption
source, the STT backends, the clock) are parameters of the embedded
functions; each call that can observe a different answer from the outside
world takes that answer as an argument.
-/

/-- A transcript segment in the canonical `(text, start, duration)` shape
that every code path of `main.py` projects its data to. -/
structure Seg where
  text : String
  start : ℚ
  duration : ℚ
deriving DecidableEq, Repr

/-! ### String containment, mirroring Python's `in` operator on `str` -/

/-- `leadEq pat l` is Python's `l.startswith(pat)` on lists of characters. -/
def leadEq : List Char → List Char → Bool
  | [], _ => true
  | _ :: _, [] => false
  | a :: as, b :: bs => (a = b : Bool) && leadEq as bs

/-- `occursIn pat l` is Python's `pat in l` (contiguous sublist test). -/
def occursIn (pat : List Char) : List Char → Bool
  | [] => leadEq pat []
  | b :: bs => leadEq pat (b :: bs) || occursIn pat bs

/-- Python's `pat in s` for strings. -/
def strOccurs (pat s : String) : Bool :=
  occursIn pat.toList s.toList

/-- Python's `s.lower()`, character by character. -/
def lowerStr (s : String) : String :=
  ⟨s.data.map Char.toLower⟩

/-! ### RetryExecutor: `fetch_with_retry` (main.py 476-498) -/

/-- Classification `is_rate_limit` of main.py line 492 (on the lowered
message): the message mentions HTTP 429 or "too many requests". -/
def isRateLimitMsg (msg : String) : Bool :=
  strOccurs "429" msg || strOccurs "too many requests" msg

/-- Classification `is_empty_xml` of main.py line 493 (on the lowered
message): empty/invalid payload indicators. -/
def isEmptyDataMsg (msg : String) : Bool :=
  strOccurs "no element found" msg || strOccurs "empty transcript" msg ||
    strOccurs "empty" msg

/-- A failure is transient when, after lowering the message as
`msg = str(e).lower()` does, either classifier accepts it. -/
def transientMsg (e : String) : Bool :=
  isRateLimitMsg (lowerStr e) || isEmptyDataMsg (lowerStr e)

/-- One iteration of the `fetch_with_retry` loop body before error
classification: call the operation; a falsy (empty) result is turned into
the synthesized `ValueError("empty transcript data")` of main.py line 488.
The operation is modelled as a map from the 0-based attempt index to the
outcome the outside world produces on that attempt. -/
def attemptOutcome (op : Nat → Except String (List Seg)) (i : Nat) :
    Except String (List Seg) :=
  match op i with
  | .ok data => if data.isEmpty then .error "empty transcript data" else .ok data
  | .error e => .error e

/-- The loop of `fetch_with_retry`, with `i` the current 0-based attempt
index and the second argument the number of loop iterations still allowed
(`attempts - i`); Python's guard `i < attempts - 1` is exactly
`0 < remaining` here.  The second component of the result counts how many
attempts were actually made.  A run that makes no attempt (`attempts = 0`)
falls off the loop and returns Python's implicit `None`, i.e. `.ok none`. -/
def retryFrom (op : Nat → Except String (List Seg)) (i : Nat) :
    Nat → Except String (Option (List Seg)) × Nat
  | 0 => (.ok none, i)
  | remaining + 1 =>
    match attemptOutcome op i with
    | .ok d => (.ok (some d), i + 1)
    | .error e =>
      if 0 < remaining then
        if transientMsg e then retryFrom op (i + 1) remaining
        else (.error e, i + 1)
      else (.error e, i + 1)

/-- `fetch_with_retry(fetch_call, attempts)` (main.py 476-498).  The
`base_delay` argument only feeds the backoff sleep, which has no effect on
the returned value and is not modelled. -/
def fetch_with_retry (op : Nat → Except String (List Seg)) (attempts : Nat) :
    Except String (Option (List Seg)) :=
  (retryFrom op 0 attempts).1

/-- The number of attempts `fetch_with_retry(fetch_call, attempts)` makes. -/
def fetch_attempts (op : Nat → Except String (List Seg)) (attempts : Nat) : Nat :=
  (retryFrom op 0 attempts).2

/-- Attempt `i` of the operation fails and its failure is transient. -/
def transientFailAt (op : Nat → Except String (List Seg)) (i : Nat) : Bool :=
  match attemptOutcome op i with
  | .error e => transientMsg e
  | .ok _ => false

lemma transientFailAt_iff (op : Nat → Except String (List Seg)) (i : Nat) :
    transientFailAt op i = true ↔
      ∃ e, attemptOutcome op i = .error e ∧ transientMsg e = true := by
  unfold transientFailAt
  cases h : attemptOutcome op i with
  | ok d => simp [h]
  | error e => simp [h]

lemma retryFrom_ok (op : Nat → Except String (List Seg)) (i fuel : Nat)
    (d : List Seg) (h : attemptOutcome op i = .ok d) :
    retryFrom op i (fuel + 1) = (.ok (some d), i + 1) := by
  simp [retryFrom, h]

lemma retryFrom_step (op : Nat → Except String (List Seg)) (i fuel : Nat)
    (e : String) (h : attemptOutcome op i = .error e)
    (ht : transientMsg e = true) (hf : 0 < fuel) :
    retryFrom op i (fuel + 1) = retryFrom op (i + 1) fuel := by
  simp [retryFrom, h, ht, hf]

lemma retryFrom_stop (op : Nat → Except String (List Seg)) (i fuel : Nat)
    (e : String) (h : attemptOutcome op i = .error e)
    (hne : transientMsg e = false ∨ fuel = 0) :
    retryFrom op i (fuel + 1) = (.error e, i + 1) := by
  rcases hne with h2 | h2 <;> simp [retryFrom, h, h2]

/-- C1: with the default `attempts = 5` (and `base_delay = 1.2`, which only
shapes the sleep), `fetch_with_retry` (i) returns the success value when the
operation fails transiently on attempts 0-3 and returns non-empty data on
attempt 4, making all 5 attempts; (ii) makes exactly 5 attempts and
propagates the final attempt's failure when every attempt fails
transiently; (iii) propagates a non-transient first failure immediately,
after exactly 1 attempt (zero retries). -/
theorem c1_retry_executor :
    (∀ (op : Nat → Except String (List Seg)) (d : List Seg),
       (∀ i, i < 4 → transientFailAt op i = true) → op 4 = .ok d → d ≠ [] →
       fetch_with_retry op 5 = .ok (some d) ∧ fetch_attempts op 5 = 5) ∧
    (∀ op : Nat → Except String (List Seg),
       (∀ i, i < 5 → transientFailAt op i = true) →
       fetch_attempts op 5 = 5 ∧
       ∃ e, fetch_with_retry op 5 = .error e ∧ attemptOutcome op 4 = .error e) ∧
    (∀ (op : Nat → Except String (List Seg)) (e : String),
       attemptOutcome op 0 = .error e → transientMsg e = false →
       fetch_with_retry op 5 = .error e ∧ fetch_attempts op 5 = 1) := by
  refine ⟨?_, ?_, ?_⟩
  · intro op d hfail h4 hne
    obtain ⟨e0, he0, ht0⟩ := (transientFailAt_iff op 0).1 (hfail 0 (by omega))
    obtain ⟨e1, he1, ht1⟩ := (transientFailAt_iff op 1).1 (hfail 1 (by omega))
    obtain ⟨e2, he2, ht2⟩ := (transientFailAt_iff op 2).1 (hfail 2 (by omega))
    obtain ⟨e3, he3, ht3⟩ := (transientFailAt_iff op 3).1 (hfail 3 (by omega))
    have hA : attemptOutcome op 4 = .ok d := by
      cases d with
      | nil => exact absurd rfl hne
      | cons a t => simp [attemptOutcome, h4]
    have s0 : retryFrom op 0 5 = retryFrom op 1 4 :=
      retryFrom_step op 0 4 e0 he0 ht0 (by omega)
    have s1 : retryFrom op 1 4 = retryFrom op 2 3 :=
      retryFrom_step op 1 3 e1 he1 ht1 (by omega)
    have s2 : retryFrom op 2 3 = retryFrom op 3 2 :=
      retryFrom_step op 2 2 e2 he2 ht2 (by omega)
    have s3 : retryFrom op 3 2 = retryFrom op 4 1 :=
      retryFrom_step op 3 1 e3 he3 ht3 (by omega)
    have s4 : retryFrom op 4 1 = (.ok (some d), 5) := retryFrom_ok op 4 0 d hA
    have hall : retryFrom op 0 5 = (.ok (some d), 5) := by
      rw [s0, s1, s2, s3, s4]
    constructor
    · show (retryFrom op 0 5).1 = .ok (some d)
      rw [hall]
    · show (retryFrom op 0 5).2 = 5
      rw [hall]
  · intro op hfail
    obtain ⟨e0, he0, ht0⟩ := (transientFailAt_iff op 0).1 (hfail 0 (by omega))
    obtain ⟨e1, he1, ht1⟩ := (transientFailAt_iff op 1).1 (hfail 1 (by omega))
    obtain ⟨e2, he2, ht2⟩ := (transientFailAt_iff op 2).1 (hfail 2 (by omega))
    obtain ⟨e3, he3, ht3⟩ := (transientFailAt_iff op 3).1 (hfail 3 (by omega))
    obtain ⟨e4, he4, ht4⟩ := (transientFailAt_iff op 4).1 (hfail 4 (by omega))
    have s0 : retryFrom op 0 5 = retryFrom op 1 4 :=
      retryFrom_step op 0 4 e0 he0 ht0 (by omega)
    have s1 : retryFrom op 1 4 = retryFrom op 2 3 :=
      retryFrom_step op 1 3 e1 he1 ht1 (by omega)
    have s2 : retryFrom op 2 3 = retryFrom op 3 2 :=
      retryFrom_step op 2 2 e2 he2 ht2 (by omega)
    have s3 : retryFrom op 3 2 = retryFrom op 4 1 :=
      retryFrom_step op 3 1 e3 he3 ht3 (by omega)
    have s4 : retryFrom op 4 1 = (.error e4, 5) :=
      retryFrom_stop op 4 0 e4 he4 (Or.inr rfl)
    have hall : retryFrom op 0 5 = (.error e4, 5) := by
      rw [s0, s1, s2, s3, s4]
    refine ⟨?_, e4, ?_, he4⟩
    · show (retryFrom op 0 5).2 = 5
      rw [hall]
    · show (retryFrom op 0 5).1 = .error e4
      rw [hall]
  · intro op e h0 hnt
    have hall : retryFrom op 0 5 = (.error e, 1) :=
      retryFrom_stop op 0 4 e h0 (Or.inl hnt)
    constructor
    · show (retryFrom op 0 5).1 = .error e
      rw [hall]
    · show (retryFrom op 0 5).2 = 1
      rw [hall]

/-! ### SuccessCache / FailureCache (main.py 37-44, 101-110, 149-168)

The module-level dictionaries `_CACHE` and `_FAIL_CACHE` are modelled as
maps from the request key to an optional entry; every embedded cache
operation takes the map and the value of `time.time()` at the call and
returns the read result together with the possibly-mutated map (reads pop
expired entries). -/

/-- The request fingerprint `(videoId, lang, disableTranslate)`. -/
abbrev ReqKey := String × String × Bool

/-- The `_CACHE` dictionary: key to `(timestamp, data)`. -/
abbrev CacheMap := ReqKey → Option (ℚ × List Seg)

/-- The `_FAIL_CACHE` dictionary: key to `(timestamp, retry_after_seconds)`. -/
abbrev FailMap := ReqKey → Option (ℚ × ℤ)

/-- `CACHE_TTL_SECONDS = 60 * 30` (main.py line 39). -/
def CACHE_TTL_SECONDS : ℚ := 60 * 30

/-- `FAIL_TTL_SECONDS_DEFAULT = 60 * 5` (main.py line 43). -/
def FAIL_TTL_SECONDS_DEFAULT : ℤ := 60 * 5

/-- `cache_get` (main.py 101-110): absent, or expired (popped, absent), or
the stored data. -/
def cache_get (c : CacheMap) (video_id lang : String) (disable_translate : Bool)
    (now : ℚ) : Option (List Seg) × CacheMap :=
  let key : ReqKey := (video_id, lang, disable_translate)
  match c key with
  | none => (none, c)
  | some (ts, data) =>
    if now - ts > CACHE_TTL_SECONDS then
      (none, fun k => if k = key then none else c k)
    else (some data, c)

/-- `cache_set` (main.py 149-151): unconditional overwrite. -/
def cache_set (c : CacheMap) (video_id lang : String) (disable_translate : Bool)
    (now : ℚ) (data : List Seg) : CacheMap :=
  fun k => if k = (video_id, lang, disable_translate) then some (now, data) else c k

/-- `fail_cache_get` (main.py 153-164): absent, expired (popped), or the
remaining cooldown `max(1, int(retry_sec - (now - ts)))`.  In the valid
branch `retry_sec - (now - ts) ≥ 0`, so Python's truncating `int()` is the
floor. -/
def fail_cache_get (f : FailMap) (video_id lang : String) (disable_translate : Bool)
    (now : ℚ) : Option ℕ × FailMap :=
  let key : ReqKey := (video_id, lang, disable_translate)
  match f key with
  | none => (none, f)
  | some (ts, retry_sec) =>
    if now - ts > (retry_sec : ℚ) then
      (none, fun k => if k = key then none else f k)
    else (some (max 1 (⌊(retry_sec : ℚ) - (now - ts)⌋.toNat)), f)

/-- `fail_cache_set` (main.py 166-168): stores
`int(retry_after_seconds or FAIL_TTL_SECONDS_DEFAULT)`; Python's `or`
falls back to the default when the argument is `None` or `0`. -/
def fail_cache_set (f : FailMap) (video_id lang : String) (disable_translate : Bool)
    (now : ℚ) (retry_after_seconds : Option ℤ) : FailMap :=
  let v : ℤ :=
    match retry_after_seconds with
    | none => FAIL_TTL_SECONDS_DEFAULT
    | some r => if r = 0 then FAIL_TTL_SECONDS_DEFAULT else r
  fun k => if k = (video_id, lang, disable_translate) then some (now, v) else f k

/-- C5: for every key, a `cache_get` at elapsed time `≤ 1800` after a
`cache_set` returns the stored value and leaves the map unchanged; after
more than 1800 seconds it returns absent and the entry is gone; and any
read that observes an expired entry pops it as a side effect. -/
theorem c5_success_cache (c : CacheMap) (vid lang : String) (dt : Bool)
    (t0 tr : ℚ) (v : List Seg) :
    (tr - t0 ≤ CACHE_TTL_SECONDS →
       cache_get (cache_set c vid lang dt t0 v) vid lang dt tr
         = (some v, cache_set c vid lang dt t0 v)) ∧
    (CACHE_TTL_SECONDS < tr - t0 →
       (cache_get (cache_set c vid lang dt t0 v) vid lang dt tr).1 = none ∧
       (cache_get (cache_set c vid lang dt t0 v) vid lang dt tr).2 (vid, lang, dt)
         = none) ∧
    (∀ (ts : ℚ) (d : List Seg), c (vid, lang, dt) = some (ts, d) →
       CACHE_TTL_SECONDS < tr - ts →
       (cache_get c vid lang dt tr).1 = none ∧
       (cache_get c vid lang dt tr).2 (vid, lang, dt) = none) := by
  have hset : cache_set c vid lang dt t0 v (vid, lang, dt) = some (t0, v) := by
    simp [cache_set]
  refine ⟨?_, ?_, ?_⟩
  · intro hle
    simp [cache_get, hset, not_lt.2 hle]
  · intro hgt
    constructor
    · simp [cache_get, hset, hgt]
    · simp [cache_get, hset, hgt]
  · intro ts d hentry hgt
    constructor
    · simp [cache_get, hentry, hgt]
    · simp [cache_get, hentry, hgt]

/-- Closed instance of `c5_success_cache`: storing at time 0 and reading at
times 100 and 2000. -/
theorem c5_success_cache_wit :
    (cache_get (cache_set (fun _ => none) "v" "en" false 0 [⟨"hi", 0, 1⟩])
        "v" "en" false 100
      = (some [⟨"hi", 0, 1⟩], cache_set (fun _ => none) "v" "en" false 0 [⟨"hi", 0, 1⟩])) ∧
    ((cache_get (cache_set (fun _ => none) "v" "en" false 0 [⟨"hi", 0, 1⟩])
        "v" "en" false 2000).1 = none) := by
  refine ⟨(c5_success_cache (fun _ => none) "v" "en" false 0 100 [⟨"hi", 0, 1⟩]).1
      (by norm_num [CACHE_TTL_SECONDS]), ?_⟩
  exact ((c5_success_cache (fun _ => none) "v" "en" false 0 2000 [⟨"hi", 0, 1⟩]).2.1
      (by norm_num [CACHE_TTL_SECONDS])).1

/-- C6: for every key and every cooldown `c ≠ 0` (for `c = 0`, and for a
missing argument, `fail_cache_set` falls back to the 300-second default, so
"set with cooldown `c`" presupposes `c ≠ 0`): while the elapsed time `e`
satisfies `0 ≤ e ≤ c`, `fail_cache_get` returns a remaining value that is
positive, at most `c`, and equal to the cooldown minus the elapsed time
truncated to an integer and floored at 1, without touching the map; once
more than `c` seconds have elapsed it returns absent and pops the entry. -/
theorem c6_failure_cache (f : FailMap) (vid lang : String) (dt : Bool)
    (t0 tr : ℚ) (cd : ℤ) (hcd : cd ≠ 0) :
    (0 ≤ tr - t0 → tr - t0 ≤ (cd : ℚ) →
       fail_cache_get (fail_cache_set f vid lang dt t0 (some cd)) vid lang dt tr
         = (some (max 1 (⌊(cd : ℚ) - (tr - t0)⌋.toNat)),
            fail_cache_set f vid lang dt t0 (some cd)) ∧
       1 ≤ max 1 (⌊(cd : ℚ) - (tr - t0)⌋.toNat) ∧
       (max 1 (⌊(cd : ℚ) - (tr - t0)⌋.toNat) : ℤ) ≤ cd) ∧
    ((cd : ℚ) < tr - t0 →
       (fail_cache_get (fail_cache_set f vid lang dt t0 (some cd)) vid lang dt tr).1
         = none ∧
       (fail_cache_get (fail_cache_set f vid lang dt t0 (some cd)) vid lang dt tr).2
         (vid, lang, dt) = none) := by
  have hset : fail_cache_set f vid lang dt t0 (some cd) (vid, lang, dt)
      = some (t0, cd) := by
    simp [fail_cache_set, hcd]
  constructor
  · intro h0 hle
    have hcpos : 1 ≤ cd := by
      by_contra hlt
      push_neg at hlt
      have : (cd : ℚ) < 1 := by exact_mod_cast hlt
      rcases lt_or_eq_of_le (le_trans h0 hle) with h | h
      · have : (0 : ℚ) < (cd : ℚ) := h
        have h1 : 0 < cd := by exact_mod_cast this
        omega
      · exact hcd (by exact_mod_cast h.symm)
    refine ⟨?_, le_max_left _ _, ?_⟩
    · simp [fail_cache_get, hset, not_lt.2 hle]
    · have hfl : (0 : ℤ) ≤ ⌊(cd : ℚ) - (tr - t0)⌋ := by
        apply Int.le_floor.2
        push_cast
        linarith
      have hfl2 : ⌊(cd : ℚ) - (tr - t0)⌋ ≤ cd := by
        have : ⌊(cd : ℚ) - (tr - t0)⌋ ≤ ⌊(cd : ℚ)⌋ :=
          Int.floor_le_floor (by linarith)
        simpa using this
      have : (⌊(cd : ℚ) - (tr - t0)⌋.toNat : ℤ) = ⌊(cd : ℚ) - (tr - t0)⌋ :=
        Int.toNat_of_nonneg hfl
      omega
  · intro hgt
    constructor
    · simp [fail_cache_get, hset, hgt]
    · simp [fail_cache_get, hset, hgt]

/-- Closed instance of `c6_failure_cache`: cooldown 120 set at time 0, read
at elapsed 30.5 (remaining `max 1 ⌊89.5⌋ = 89`) and at elapsed 121. -/
theorem c6_failure_cache_wit :
    ((fail_cache_get (fail_cache_set (fun _ => none) "v" "en" false 0 (some 120))
        "v" "en" false (61/2)).1 = some 89) ∧
    ((fail_cache_get (fail_cache_set (fun _ => none) "v" "en" false 0 (some 120))
        "v" "en" false 121).1 = none) := by
  constructor
  · have h := ((c6_failure_cache (fun _ => none) "v" "en" false 0 (61/2) 120
        (by norm_num)).1 (by norm_num) (by norm_num)).1
    rw [h]
    norm_num
    rfl
  · exact ((c6_failure_cache (fun _ => none) "v" "en" false 0 121 120
        (by norm_num)).2 (by norm_num)).1

/-! ### DurationNormalizer: `_normalize_durations` (main.py 170-212) -/

/-- A raw segment dict as `_normalize_durations` consumes it: `none` stands
for a missing key or a value `float()` cannot parse (both are handled the
same way by `seg.get(...)` plus `_safe_float` / the `try: float(dur)`). -/
structure RawSeg where
  text : String
  start : Option ℚ
  duration : Option ℚ
deriving DecidableEq, Repr

/-- `_safe_float` (main.py 170-174): parse, or fall back to the default. -/
def _safe_float (val : Option ℚ) (default : ℚ) : ℚ :=
  val.getD default

/-- Python's `round` to an integer: round half to even. -/
def pyRound (q : ℚ) : ℤ :=
  let f := ⌊q⌋
  let r := q - f
  if r < 1/2 then f
  else if 1/2 < r then f + 1
  else if f % 2 = 0 then f else f + 1

/-- Python's `round(q, 3)`. -/
def round3 (q : ℚ) : ℚ :=
  (pyRound (q * 1000) : ℚ) / 1000

/-- `needs_fill` (main.py 189-193): the duration is missing, unparsable, or
`float(dur) <= 0`. -/
def needsFill (dur : Option ℚ) : Bool :=
  decide (dur.getD 0 ≤ 0)

/-- The loop body of `_normalize_durations` for the segment at index `i`,
reading neighbours from the original list, exactly as the source indexes
`segments[i + 1]` and `segments[i - 1]`. -/
def normalizeSeg (segments : List RawSeg) (i : Nat) (seg : RawSeg) : RawSeg :=
  let start := _safe_float seg.start 0
  let n := segments.length
  let dur : Option ℚ :=
    if needsFill seg.duration then
      if i < n - 1 then
        let next_start := _safe_float ((segments.get? (i + 1)).bind RawSeg.start) start
        some (max 0 (round3 (next_start - start)))
      else if 2 ≤ n then
        let prev_start := _safe_float ((segments.get? (i - 1)).bind RawSeg.start) start
        some (max 0 (round3 (start - prev_start)))
      else some 0
    else seg.duration
  { text := seg.text, start := some start, duration := dur }

/-- The `for i, seg in enumerate(segments)` loop, `i` being the index of the
head of the remaining list. -/
def normAux (segments : List RawSeg) : Nat → List RawSeg → List RawSeg
  | _, [] => []
  | i, s :: rest => normalizeSeg segments i s :: normAux segments (i + 1) rest

/-- `_normalize_durations` (main.py 176-212). -/
def _normalize_durations (segments : List RawSeg) : List RawSeg :=
  if segments.isEmpty then segments else normAux segments 0 segments

lemma normAux_length (orig : List RawSeg) :
    ∀ (l : List RawSeg) (i : Nat), (normAux orig i l).length = l.length := by
  intro l
  induction l with
  | nil => intro i; simp [normAux]
  | cons s rest ih => intro i; simp [normAux, ih (i + 1)]

lemma normAux_get? (orig : List RawSeg) :
    ∀ (l : List RawSeg) (i j : Nat),
      (normAux orig i l).get? j = (l.get? j).map (normalizeSeg orig (i + j)) := by
  intro l
  induction l with
  | nil => intro i j; simp [normAux]
  | cons s rest ih =>
    intro i j
    cases j with
    | zero => simp [normAux]
    | succ j' =>
      have h1 : i + 1 + j' = i + (j' + 1) := by omega
      calc (normAux orig i (s :: rest)).get? (j' + 1)
          = (normAux orig (i + 1) rest).get? j' := by simp [normAux]
        _ = (rest.get? j').map (normalizeSeg orig (i + 1 + j')) := ih (i + 1) j'
        _ = ((s :: rest).get? (j' + 1)).map (normalizeSeg orig (i + (j' + 1))) := by
            rw [h1]; simp

/-- C7: `_normalize_durations` keeps length and order (no segment dropped,
none reordered, texts and starts preserved per index), maps empty input to
empty output, passes segments with a valid positive duration through
unchanged, and fills each missing/non-positive duration: from the next
segment's start when one exists, from the previous start for a last segment
with a predecessor, and with 0 for a sole segment. -/
theorem c7_duration_normalizer (segs : List RawSeg) :
    ((_normalize_durations segs).length = segs.length) ∧
    (segs = [] → _normalize_durations segs = []) ∧
    (∀ (i : Nat) (s : RawSeg) (st : ℚ), segs.get? i = some s → s.start = some st →
      ∃ o, (_normalize_durations segs).get? i = some o ∧
        o.text = s.text ∧ o.start = some st ∧
        (∀ d : ℚ, s.duration = some d → 0 < d → o = s) ∧
        (needsFill s.duration = true →
          ((∀ (nxt : RawSeg) (nst : ℚ), segs.get? (i + 1) = some nxt →
              nxt.start = some nst →
              o.duration = some (max 0 (round3 (nst - st)))) ∧
           (segs.get? (i + 1) = none → 2 ≤ segs.length →
              ∀ (prev : RawSeg) (pst : ℚ), segs.get? (i - 1) = some prev →
                prev.start = some pst →
                o.duration = some (max 0 (round3 (st - pst)))) ∧
           (segs.length = 1 → o.duration = some 0)))) := by
  refine ⟨?_, ?_, ?_⟩
  · by_cases h : segs = []
    · subst h; rfl
    · have hne : segs.isEmpty = false := by
        simpa [List.isEmpty_iff] using h
      simp [_normalize_durations, hne, normAux_length]
  · intro h; subst h; rfl
  · intro i s st hget hst
    have hlti : i < segs.length := by
      obtain ⟨h1, -⟩ := List.get?_eq_some.1 hget
      exact h1
    have hne : segs ≠ [] := by
      intro h; subst h; simp at hget
    have hEe : segs.isEmpty = false := by
      simpa [List.isEmpty_iff] using hne
    have hout : (_normalize_durations segs).get? i = some (normalizeSeg segs i s) := by
      have := normAux_get? segs segs 0 i
      simp only [_normalize_durations, hEe, Bool.false_eq_true, if_false, this,
        hget, Option.map_some', Nat.zero_add]
    refine ⟨normalizeSeg segs i s, hout, rfl, ?_, ?_, ?_⟩
    · simp [normalizeSeg, _safe_float, hst]
    · intro d hd hdpos
      have hnf : needsFill s.duration = false := by
        simp only [needsFill, hd, Option.getD_some, decide_eq_false_iff_not, not_le]
        exact hdpos
      cases s with
      | mk txt st0 du =>
        simp only [RawSeg.start] at hst
        simp only [RawSeg.duration] at hd
        subst hst
        subst hd
        simp [normalizeSeg, hnf, _safe_float]
    · intro hnf
      refine ⟨?_, ?_, ?_⟩
      · intro nxt nst hnxt hnst
        have hlt : i + 1 < segs.length := by
          obtain ⟨h1, -⟩ := List.get?_eq_some.1 hnxt
          exact h1
        have hcon : i < segs.length - 1 := by omega
        have hnxt' : segs[i + 1]? = some nxt := by
          simpa [List.get?_eq_getElem?] using hnxt
        simp [normalizeSeg, hnf, hcon, hnxt', hnst, _safe_float, hst]
      · intro hnone h2 prev pst hprev hpst
        have hge : segs.length ≤ i + 1 := List.get?_eq_none.1 hnone
        have hcon : ¬ i < segs.length - 1 := by omega
        have hprev' : segs[i - 1]? = some prev := by
          simpa [List.get?_eq_getElem?] using hprev
        simp [normalizeSeg, hnf, hcon, h2, hprev', hpst, _safe_float, hst]
      · intro h1
        have hcon : ¬ i < segs.length - 1 := by omega
        have hcon2 : ¬ 2 ≤ segs.length := by omega
        simp [normalizeSeg, hnf, hcon, hcon2]

/-- Closed instance of `c7_duration_normalizer` on the spec's own example
`[{start 0, duration -1}, {start 5, duration 2}, {start 10, duration 3}]`:
the first segment's duration is filled to `5 - 0 = 5` and the second
segment passes through unchanged. -/
theorem c7_duration_normalizer_wit :
    (∃ o : RawSeg,
      (_normalize_durations
          [⟨"a", some 0, some (-1)⟩, ⟨"b", some 5, some 2⟩, ⟨"c", some 10, some 3⟩]).get? 0
        = some o ∧ o.duration = some 5) ∧
    (_normalize_durations
        [⟨"a", some 0, some (-1)⟩, ⟨"b", some 5, some 2⟩, ⟨"c", some 10, some 3⟩]).get? 1
      = some ⟨"b", some 5, some 2⟩ := by
  constructor
  · obtain ⟨o, ho, -, -, -, hfill⟩ :=
      (c7_duration_normalizer
        [⟨"a", some 0, some (-1)⟩, ⟨"b", some 5, some 2⟩, ⟨"c", some 10, some 3⟩]).2.2
        0 ⟨"a", some 0, some (-1)⟩ 0 rfl rfl
    refine ⟨o, ho, ?_⟩
    have hd := (hfill (by decide)).1 ⟨"b", some 5, some 2⟩ 5 rfl rfl
    rw [hd]
    norm_num [round3, pyRound]
  · obtain ⟨o, ho, -, -, hpass, -⟩ :=
      (c7_duration_normalizer
        [⟨"a", some 0, some (-1)⟩, ⟨"b", some 5, some 2⟩, ⟨"c", some 10, some 3⟩]).2.2
        1 ⟨"b", some 5, some 2⟩ 5 rfl rfl
    rw [ho, hpass 2 rfl (by norm_num)]

/-! ### TranscriptSourceSelector: `fetch_transcript_segments` (main.py 444-622)

The caption-source collaborator (youtube_transcript_api) is external to the
repository; it is modelled through the interface the spec describes in
sections 4.3 and 6: an enumerable list of track descriptors, per-track
fetch and translate, and a direct multi-language fetch.  A track's fetch is
a map from the 0-based retry attempt index to that attempt's outcome, so it
can be driven through `fetch_with_retry`. -/

/-- A caption track descriptor together with the behaviour of its fetch and
translate operations.  `translate l = none` models `tr.translate(l)`
raising; `translate l = some f` models it returning a handle whose fetch
behaves as `f`.  The display-language field is only used by the source for
logging and is omitted. -/
structure Track where
  language_code : String
  is_generated : Bool
  is_translatable : Bool
  fetch : Nat → Except String (List Seg)
  translate : String → Option (Nat → Except String (List Seg))

/-- Outcome of `YouTubeTranscriptApi.list_transcripts(video_id)`:
a track list, the terminal `TranscriptsDisabled`/`NoTranscriptFound`
conditions, or any other exception. -/
inductive Listing where
  | ok (tracks : List Track)
  | noTranscript
  | failure

/-- The environment a single `fetch_transcript_segments` call runs in:
the capability probe `supports_listing()`, the listing outcome, and the
behaviour of the direct `YouTubeTranscriptApi.get_transcript` per language
list (`.error` models it raising). -/
structure FetchEnv where
  supports_listing : Bool
  listing : Listing
  get_transcript : List String → Except Unit (List Seg)

/-- First hit of `f` over a list, as each `for`-loop with an early `return`
does it. -/
def firstSome {α β : Type} (f : α → Option β) : List α → Option β
  | [] => none
  | a :: rest =>
    match f a with
    | some b => some b
    | none => firstSome f rest

/-- First element satisfying `p`, as the collaborator's keyed lookup scans
the enumeration. -/
def findTrack (p : Track → Bool) : List Track → Option Track
  | [] => none
  | t :: rest => if p t then some t else findTrack p rest

/-- Modelled from the spec (section 4.3, tier 1, and section 6): the
collaborator's `find_manually_created_transcript([l])` — look up a
manually-created track matching exactly the code `l`; absent means the
lookup raises `NoTranscriptFound`, which the caller catches. -/
def find_manually_created_transcript (tracks : List Track) (l : String) :
    Option Track :=
  findTrack (fun tr => !tr.is_generated && tr.language_code == l) tracks

/-- Modelled from the spec (section 4.3, tier 3): the collaborator's
`find_generated_transcript([l])`. -/
def find_generated_transcript (tracks : List Track) (l : String) : Option Track :=
  findTrack (fun tr => tr.is_generated && tr.language_code == l) tracks

/-- `data = fetch_with_retry(lambda: tr.fetch())` followed by the
projection to `(text, start, duration)` (the identity on the `Seg` model),
inside a tier's `try`: any raised error becomes `none` and the tier moves
on. -/
def fetchViaRetry (f : Nat → Except String (List Seg)) : Option (List Seg) :=
  match fetch_with_retry f 5 with
  | .ok (some d) => some d
  | _ => none

/-- Tier 1 body for one preferred language (main.py 538-545). -/
def tier1Step (tracks : List Track) (l : String) : Option (List Seg) :=
  match find_manually_created_transcript tracks l with
  | some tr => fetchViaRetry tr.fetch
  | none => none

/-- Tier 1: manual transcript in preferred languages (main.py 537-545). -/
def tier1 (tracks : List Track) (preferred : List String) : Option (List Seg) :=
  firstSome (tier1Step tracks) preferred

/-- `lang if lang else "en"`, the target passed to `tr.translate`. -/
def tgtLang (lang : String) : String :=
  if lang = "" then "en" else lang

/-- Tier 2 body for one enumerated track (main.py 549-570): skip
non-translatable tracks and same-language tracks; otherwise fetch the
translation with retry and, if that fails, degrade to fetching the original
track with retry; a failing degrade moves on to the next track. -/
def tier2Step (lang : String) (tr : Track) : Option (List Seg) :=
  if tr.is_translatable then
    if lowerStr tr.language_code = lowerStr (tgtLang lang) then none
    else
      match tr.translate (tgtLang lang) with
      | none => none
      | some tfetch =>
        match fetchViaRetry tfetch with
        | some d => some d
        | none => fetchViaRetry tr.fetch
  else none

/-- Tier 2: translate a track to the requested language (main.py 547-570). -/
def tier2 (tracks : List Track) (lang : String) : Option (List Seg) :=
  firstSome (tier2Step lang) tracks

/-- Tier 3 body for one preferred language (main.py 573-580). -/
def tier3Step (tracks : List Track) (l : String) : Option (List Seg) :=
  match find_generated_transcript tracks l with
  | some tr => fetchViaRetry tr.fetch
  | none => none

/-- Tier 3: generated transcript in preferred languages (main.py 572-580). -/
def tier3 (tracks : List Track) (preferred : List String) : Option (List Seg) :=
  firstSome (tier3Step tracks) preferred

/-- Tier 4, only for `lang = "auto"` (main.py 582-599): any manual track
first, then any generated track. -/
def tier4 (tracks : List Track) : Option (List Seg) :=
  match firstSome
      (fun tr => if tr.is_generated then none else fetchViaRetry tr.fetch) tracks with
  | some d => some d
  | none =>
    firstSome (fun tr => if tr.is_generated then fetchViaRetry tr.fetch else none)
      tracks

/-- Tier 5, last resort (main.py 601-608): first fetchable track. -/
def tier5 (tracks : List Track) : Option (List Seg) :=
  firstSome (fun tr => fetchViaRetry tr.fetch) tracks

/-- `try_get_transcript_simple` (main.py 461-473): direct fetch over the
candidate language lists, first success wins, all failures give `None`. -/
def try_get_transcript_simple (env : FetchEnv) (preferred_langs : List String) :
    Option (List Seg) :=
  firstSome (fun langs => (env.get_transcript langs).toOption)
    [preferred_langs, ["en"], ["en-US"], ["en-GB"]]

/-- `fetch_transcript_segments` (main.py 505-622).  The function never
raises: every tier failure is swallowed and the fall-through result is
Python's `None`.  The listing-time terminal conditions short-circuit to
`None` before any tier runs. -/
def fetch_transcript_segments (env : FetchEnv) (video_id : String)
    (lang : String) (disable_translate : Bool) : Option (List Seg) :=
  let preferred := [lang, "en", "en-US", "en-GB"]
  if env.supports_listing then
    match env.listing with
    | .noTranscript => none
    | .failure => none
    | .ok tracks =>
      match tier1 tracks preferred with
      | some d => some d
      | none =>
        match (if disable_translate then none else tier2 tracks lang) with
        | some d => some d
        | none =>
          match tier3 tracks preferred with
          | some d => some d
          | none =>
            match (if lowerStr lang = "auto" then tier4 tracks else none) with
            | some d => some d
            | none =>
              match tier5 tracks with
              | some d => some d
              | none => (env.get_transcript preferred).toOption
  else try_get_transcript_simple env preferred

lemma findTrack_some (p : Track → Bool) :
    ∀ (l : List Track) (t : Track), findTrack p l = some t → p t = true := by
  intro l
  induction l with
  | nil => intro t h; simp [findTrack] at h
  | cons a rest ih =>
    intro t h
    by_cases hp : p a = true
    · simp [findTrack, hp] at h
      rw [← h]
      exact hp
    · simp only [findTrack, hp, Bool.false_eq_true, if_false] at h
      exact ih t h

/-- C8: when track enumeration reports that no transcripts exist (or they
are disabled), the selector returns the empty result (`None`, not an
error) immediately — for every direct-fetch behaviour, every language and
every translate setting, so no fallback tier (in particular not the direct
tier-6 fetch, the only code after the handler) and no retry is consulted. -/
theorem c8_no_transcripts_terminal (g : List String → Except Unit (List Seg))
    (vid lang : String) (dt : Bool) :
    fetch_transcript_segments ⟨true, Listing.noTranscript, g⟩ vid lang dt = none := rfl

/-- C2: if the listing holds both a manually-created English track and a
generated English track and the manual lookup's result is fetchable, a
request for `lang = "en"` returns exactly the manual track's segments (the
cascade stops in tier 1, before any generated track is consulted). -/
theorem c2_manual_beats_generated (env : FetchEnv) (vid : String) (dt : Bool)
    (tracks : List Track) (m : Track) (d : List Seg)
    (hs : env.supports_listing = true) (hl : env.listing = .ok tracks)
    (hgen : ∃ g ∈ tracks, g.is_generated = true ∧ g.language_code = "en")
    (hfind : find_manually_created_transcript tracks "en" = some m)
    (hfetch : fetchViaRetry m.fetch = some d) :
    m.is_generated = false ∧ m.language_code = "en" ∧
      fetch_transcript_segments env vid "en" dt = some d := by
  have hp : (!m.is_generated && m.language_code == "en") = true :=
    findTrack_some _ tracks m hfind
  have hm : m.is_generated = false ∧ m.language_code = "en" := by
    have := Bool.and_eq_true_iff.1 hp
    refine ⟨by simpa using this.1, by simpa using this.2⟩
  refine ⟨hm.1, hm.2, ?_⟩
  have ht1 : tier1 tracks ["en", "en", "en-US", "en-GB"] = some d := by
    simp [tier1, firstSome, tier1Step, hfind, hfetch]
  simp [fetch_transcript_segments, hs, hl, ht1]

/-- A manual English track whose first fetch attempt succeeds. -/
def manualEnTrack : Track :=
  { language_code := "en", is_generated := false, is_translatable := false,
    fetch := fun _ => .ok [⟨"manual", 0, 2⟩], translate := fun _ => none }

/-- A generated English track whose first fetch attempt succeeds. -/
def generatedEnTrack : Track :=
  { language_code := "en", is_generated := true, is_translatable := false,
    fetch := fun _ => .ok [⟨"generated", 0, 2⟩], translate := fun _ => none }

/-- Closed instance of `c2_manual_beats_generated`: with both tracks
fetchable, the manual segments win. -/
theorem c2_manual_beats_generated_wit :
    fetch_transcript_segments
        ⟨true, Listing.ok [manualEnTrack, generatedEnTrack], fun _ => .error ()⟩
        "v" "en" false
      = some [⟨"manual", 0, 2⟩] :=
  (c2_manual_beats_generated
    ⟨true, Listing.ok [manualEnTrack, generatedEnTrack], fun _ => .error ()⟩
    "v" false [manualEnTrack, generatedEnTrack] manualEnTrack [⟨"manual", 0, 2⟩]
    rfl rfl
    ⟨generatedEnTrack,
      List.mem_cons_of_mem _ (List.mem_cons_self _ _), rfl, rfl⟩
    rfl rfl).2.2

/-- Erase a track's translate behaviour, keeping everything the selector
reads outside tier 2 (code, flags, fetch) intact. -/
def Track.clearTranslate (tr : Track) : Track :=
  { tr with translate := fun _ => none }

lemma firstSome_append_none {α β : Type} (f : α → Option β) :
    ∀ (pre rest : List α), (∀ a ∈ pre, f a = none) →
      firstSome f (pre ++ rest) = firstSome f rest := by
  intro pre
  induction pre with
  | nil => intro rest _; rfl
  | cons a as ih =>
    intro rest h
    have ha : f a = none := h a (List.mem_cons_self a as)
    have hrest : ∀ b ∈ as, f b = none := fun b hb => h b (List.mem_cons_of_mem a hb)
    simp [firstSome, ha, ih rest hrest]

lemma firstSome_congr {α β : Type} (f g : α → Option β) (h : ∀ a, f a = g a) :
    ∀ l : List α, firstSome f l = firstSome g l := by
  intro l
  induction l with
  | nil => rfl
  | cons a as ih => simp [firstSome, h a, ih]

lemma firstSome_map_clear (g : Track → Option (List Seg))
    (hg : ∀ t, g (Track.clearTranslate t) = g t) :
    ∀ l : List Track, firstSome g (l.map Track.clearTranslate) = firstSome g l := by
  intro l
  induction l with
  | nil => rfl
  | cons t ts ih => simp [firstSome, hg t, ih]

lemma findTrack_map_clear (p : Track → Bool)
    (hp : ∀ t, p (Track.clearTranslate t) = p t) :
    ∀ l : List Track,
      findTrack p (l.map Track.clearTranslate)
        = (findTrack p l).map Track.clearTranslate := by
  intro l
  induction l with
  | nil => rfl
  | cons t ts ih =>
    by_cases h : p t = true
    · simp [findTrack, hp t, h]
    · simp only [List.map_cons, findTrack, hp t, h, Bool.false_eq_true, if_false]
      exact ih

lemma tier1Step_clear (tracks : List Track) (l : String) :
    tier1Step (tracks.map Track.clearTranslate) l = tier1Step tracks l := by
  unfold tier1Step find_manually_created_transcript
  rw [findTrack_map_clear (fun tr => !tr.is_generated && tr.language_code == l)
    (fun t => rfl) tracks]
  cases findTrack (fun tr => !tr.is_generated && tr.language_code == l) tracks with
  | none => rfl
  | some m => rfl

lemma tier3Step_clear (tracks : List Track) (l : String) :
    tier3Step (tracks.map Track.clearTranslate) l = tier3Step tracks l := by
  unfold tier3Step find_generated_transcript
  rw [findTrack_map_clear (fun tr => tr.is_generated && tr.language_code == l)
    (fun t => rfl) tracks]
  cases findTrack (fun tr => tr.is_generated && tr.language_code == l) tracks with
  | none => rfl
  | some m => rfl

lemma tier1_clear (tracks : List Track) (preferred : List String) :
    tier1 (tracks.map Track.clearTranslate) preferred = tier1 tracks preferred :=
  firstSome_congr _ _ (tier1Step_clear tracks) preferred

lemma tier3_clear (tracks : List Track) (preferred : List String) :
    tier3 (tracks.map Track.clearTranslate) preferred = tier3 tracks preferred :=
  firstSome_congr _ _ (tier3Step_clear tracks) preferred

lemma tier4_clear (tracks : List Track) :
    tier4 (tracks.map Track.clearTranslate) = tier4 tracks := by
  unfold tier4
  rw [firstSome_map_clear
      (fun tr => if tr.is_generated then none else fetchViaRetry tr.fetch)
      (fun t => rfl) tracks,
    firstSome_map_clear
      (fun tr => if tr.is_generated then fetchViaRetry tr.fetch else none)
      (fun t => rfl) tracks]

lemma tier5_clear (tracks : List Track) :
    tier5 (tracks.map Track.clearTranslate) = tier5 tracks := by
  unfold tier5
  rw [firstSome_map_clear (fun tr => fetchViaRetry tr.fetch) (fun t => rfl) tracks]

/-- C3: (i) with translation enabled, when no preferred-language manual
track is usable (tier 1 yields nothing) and the cascade reaches a
translatable track whose source language differs from the requested target,
a translated fetch that fails even after the retry wrapper degrades to
fetching the original untranslated track through the retry wrapper, and the
selector returns those original segments instead of failing the tier;
(ii) with `disableTranslate = true` the whole translate tier is skipped:
the result cannot depend on any track's translate behaviour. -/
theorem c3_translate_degrade_and_skip :
    (∀ (env : FetchEnv) (vid lang : String) (tracks pre post : List Track)
       (tr : Track) (tfetch : Nat → Except String (List Seg)) (d : List Seg),
       env.supports_listing = true → env.listing = .ok tracks →
       tracks = pre ++ tr :: post →
       (∀ t ∈ pre, tier2Step lang t = none) →
       tier1 tracks [lang, "en", "en-US", "en-GB"] = none →
       tr.is_translatable = true →
       lowerStr tr.language_code ≠ lowerStr (tgtLang lang) →
       tr.translate (tgtLang lang) = some tfetch →
       fetchViaRetry tfetch = none →
       fetchViaRetry tr.fetch = some d →
       fetch_transcript_segments env vid lang false = some d) ∧
    (∀ (env : FetchEnv) (vid lang : String) (tracks : List Track),
       env.supports_listing = true → env.listing = .ok tracks →
       fetch_transcript_segments env vid lang true
         = fetch_transcript_segments
             ⟨true, Listing.ok (tracks.map Track.clearTranslate),
              env.get_transcript⟩ vid lang true) := by
  constructor
  · intro env vid lang tracks pre post tr tfetch d hs hl htr hpre ht1 htrn hdiff
      htl htf horig
    have hstep : tier2Step lang tr = some d := by
      simp [tier2Step, htrn, hdiff, htl, htf, horig]
    have ht2 : tier2 tracks lang = some d := by
      unfold tier2
      rw [htr, firstSome_append_none _ pre _ hpre]
      simp [firstSome, hstep]
    simp [fetch_transcript_segments, hs, hl, ht1, ht2]
  · intro env vid lang tracks hs hl
    simp [fetch_transcript_segments, hs, hl, tier1_clear, tier3_clear,
      tier4_clear, tier5_clear]

/-- A translated handle whose every fetch attempt is rate-limited. -/
def frTranslatedFetch : Nat → Except String (List Seg) :=
  fun _ => .error "429 too many requests"

/-- A manual French track: translatable, original fetch succeeds, but the
translation handle always fails. -/
def frTrack : Track :=
  { language_code := "fr", is_generated := false, is_translatable := true,
    fetch := fun _ => .ok [⟨"fr seg", 0, 1⟩],
    translate := fun _ => some frTranslatedFetch }

/-- The environment of the translate-then-degrade scenario. -/
def envC3 : FetchEnv :=
  ⟨true, Listing.ok [frTrack], fun _ => .error ()⟩

/-- Closed instance of `c3_translate_degrade_and_skip`: requesting "en"
from a sole French manual track whose translation always fails returns the
original French segments; and with translation disabled the result is
unchanged when every translate behaviour is erased. -/
theorem c3_translate_degrade_and_skip_wit :
    fetch_transcript_segments envC3 "v" "en" false = some [⟨"fr seg", 0, 1⟩] ∧
    fetch_transcript_segments envC3 "v" "en" true
      = fetch_transcript_segments
          ⟨true, Listing.ok ([frTrack].map Track.clearTranslate),
           envC3.get_transcript⟩ "v" "en" true := by
  constructor
  · exact c3_translate_degrade_and_skip.1 envC3 "v" "en" [frTrack] [] [] frTrack
      frTranslatedFetch [⟨"fr seg", 0, 1⟩] rfl rfl rfl
      (by intro t ht; cases ht) rfl rfl (by decide) rfl (by decide) rfl
  · exact c3_translate_degrade_and_skip.2 envC3 "v" "en" [frTrack] rfl rfl

/-! ### The `/transcript` route (main.py 629-767)

The route is embedded as a state transformer over the two caches.  The
outcomes of the external calls a single request can make — the selector
call (which the route guards with `try/except`) and the STT pipeline of the
resolved backend — are supplied by a `RouteEnv`.  `ENABLE_STT` and the
resolved `STT_BACKEND` string are read once per request and appear as the
already-parsed flag and backend tag. -/

/-- The resolved STT backend tag (`(sttBackend or getenv).strip().lower()`);
`other` stands for any unrecognized string. -/
inductive Backend where
  | gemini
  | openai
  | localBackend
  | other
deriving DecidableEq

/-- Per-request environment: the `ENABLE_STT` flag, the resolved backend,
the selector call's outcome (`.error` models `fetch_transcript_segments`
raising, `.ok` its returned `Optional[list]`), and the segments the STT
pipeline of the resolved backend would produce if invoked (`none` covers
every STT failure mode: no tool, no key, no audio, no text). -/
structure RouteEnv where
  enable_stt : Bool
  backend : Backend
  selector : Except Unit (Option (List Seg))
  stt_segs : Option (List Seg)

/-- A route response: a segment list, or an HTTPException with status code
and the `Retry-After` header value when one is set. -/
inductive Resp where
  | ok (segs : List Seg)
  | err (status : Nat) (retryAfter : Option Nat)
deriving DecidableEq

/-- Python truthiness of an `Optional[list]`: not `None` and non-empty. -/
def listTruthy : Option (List Seg) → Bool
  | none => false
  | some l => !l.isEmpty

/-- What the backend dispatch (`if backend == "gemini": ... elif ...`)
leaves in `segs`: the pipeline's output for gemini/openai, `None` for the
unimplemented local backend and for unknown tags. -/
def sttResult (env : RouteEnv) : Option (List Seg) :=
  match env.backend with
  | .gemini => env.stt_segs
  | .openai => env.stt_segs
  | .localBackend => none
  | .other => none

/-- `transcript` (main.py 629-767): success cache, then failure cache, then
the optional forced-STT branch, then the guarded selector call with the STT
fallback on both the exception path (cooldown 120) and the no-data path
(cooldown 300).  Returns the response and the final states of both caches.
`fail_cache_get` only ever returns values `≥ 1`, so `if remaining:` is the
`some` case of the match. -/
def transcript (env : RouteEnv) (now : ℚ) (videoId lang : String)
    (disableTranslate sttFallback forceSTT : Bool)
    (cache : CacheMap) (fail : FailMap) : Resp × CacheMap × FailMap :=
  let got := cache_get cache videoId lang disableTranslate now
  if listTruthy got.1 then (.ok (got.1.getD []), got.2, fail)
  else
    let fr := fail_cache_get fail videoId lang disableTranslate now
    match fr.1 with
    | some r => (.err 429 (some r), got.2, fr.2)
    | none =>
      if forceSTT then
        if !env.enable_stt then (.err 400 none, got.2, fr.2)
        else
          let segs := sttResult env
          if listTruthy segs then
            (.ok (segs.getD []),
             cache_set got.2 videoId lang disableTranslate now (segs.getD []), fr.2)
          else (.err 502 none, got.2, fr.2)
      else
        match env.selector with
        | .error _ =>
          let segs := if sttFallback && env.enable_stt then sttResult env else none
          if listTruthy segs then
            (.ok (segs.getD []),
             cache_set got.2 videoId lang disableTranslate now (segs.getD []), fr.2)
          else
            (.err 429 (some 120), got.2,
             fail_cache_set fr.2 videoId lang disableTranslate now (some 120))
        | .ok dataO =>
          if listTruthy dataO then
            (.ok (dataO.getD []),
             cache_set got.2 videoId lang disableTranslate now (dataO.getD []), fr.2)
          else
            let segs := if sttFallback && env.enable_stt then sttResult env else none
            if listTruthy segs then
              (.ok (segs.getD []),
               cache_set got.2 videoId lang disableTranslate now (segs.getD []), fr.2)
            else
              (.err 429 (some 300), got.2,
               fail_cache_set fr.2 videoId lang disableTranslate now (some 300))

/-- C4: when neither caption segments nor an STT result can be produced —
with a cold success cache and no active cooldown — the route answers 429
with an explicit Retry-After of 120 seconds if the selector call raised,
and of 300 seconds if the selector simply returned no data, and in each
case records exactly that cooldown in the failure cache under the request
key. -/
theorem c4_cooldown_on_total_failure :
    (∀ (env : RouteEnv) (now : ℚ) (vid lang : String) (dt sf : Bool)
       (cache : CacheMap) (fail : FailMap),
       listTruthy (cache_get cache vid lang dt now).1 = false →
       (fail_cache_get fail vid lang dt now).1 = none →
       env.selector = .error () →
       listTruthy (if sf && env.enable_stt then sttResult env else none) = false →
       transcript env now vid lang dt sf false cache fail
         = (.err 429 (some 120), (cache_get cache vid lang dt now).2,
            fail_cache_set (fail_cache_get fail vid lang dt now).2 vid lang dt now
              (some 120)) ∧
       fail_cache_set (fail_cache_get fail vid lang dt now).2 vid lang dt now
           (some 120) (vid, lang, dt)
         = some (now, 120)) ∧
    (∀ (env : RouteEnv) (now : ℚ) (vid lang : String) (dt sf : Bool)
       (cache : CacheMap) (fail : FailMap) (dataO : Option (List Seg)),
       listTruthy (cache_get cache vid lang dt now).1 = false →
       (fail_cache_get fail vid lang dt now).1 = none →
       env.selector = .ok dataO →
       listTruthy dataO = false →
       listTruthy (if sf && env.enable_stt then sttResult env else none) = false →
       transcript env now vid lang dt sf false cache fail
         = (.err 429 (some 300), (cache_get cache vid lang dt now).2,
            fail_cache_set (fail_cache_get fail vid lang dt now).2 vid lang dt now
              (some 300)) ∧
       fail_cache_set (fail_cache_get fail vid lang dt now).2 vid lang dt now
           (some 300) (vid, lang, dt)
         = some (now, 300)) := by
  constructor
  · intro env now vid lang dt sf cache fail hmiss hfail hsel hstt
    have hstt2 : listTruthy
        (if sf = true ∧ env.enable_stt = true then sttResult env else none)
          = false := by
      simpa [Bool.and_eq_true] using hstt
    constructor
    · simp [transcript, hmiss, hfail, hsel, hstt2]
    · simp [fail_cache_set]
  · intro env now vid lang dt sf cache fail dataO hmiss hfail hsel hdata hstt
    have hstt2 : listTruthy
        (if sf = true ∧ env.enable_stt = true then sttResult env else none)
          = false := by
      simpa [Bool.and_eq_true] using hstt
    constructor
    · simp [transcript, hmiss, hfail, hsel, hdata, hstt2]
    · simp [fail_cache_set]

/-- An empty success cache. -/
def emptyCache : CacheMap := fun _ => none

/-- An empty failure cache. -/
def emptyFail : FailMap := fun _ => none

/-- Closed instance of `c4_cooldown_on_total_failure`: with STT disabled
and cold caches, a raising selector yields 429/120 and a no-data selector
yields 429/300, with the matching cooldown recorded. -/
theorem c4_cooldown_on_total_failure_wit :
    (transcript ⟨false, Backend.openai, .error (), none⟩ 0 "v" "en" false true false
        emptyCache emptyFail
      = (.err 429 (some 120), (cache_get emptyCache "v" "en" false 0).2,
         fail_cache_set (fail_cache_get emptyFail "v" "en" false 0).2
           "v" "en" false 0 (some 120)) ∧
     fail_cache_set (fail_cache_get emptyFail "v" "en" false 0).2
         "v" "en" false 0 (some 120) ("v", "en", false)
       = some (0, 120)) ∧
    (transcript ⟨false, Backend.openai, .ok none, none⟩ 0 "v" "en" false true false
        emptyCache emptyFail
      = (.err 429 (some 300), (cache_get emptyCache "v" "en" false 0).2,
         fail_cache_set (fail_cache_get emptyFail "v" "en" false 0).2
           "v" "en" false 0 (some 300)) ∧
     fail_cache_set (fail_cache_get emptyFail "v" "en" false 0).2
         "v" "en" false 0 (some 300) ("v", "en", false)
       = some (0, 300)) :=
  ⟨c4_cooldown_on_total_failure.1 ⟨false, Backend.openai, .error (), none⟩ 0
      "v" "en" false true emptyCache emptyFail rfl rfl rfl rfl,
   c4_cooldown_on_total_failure.2 ⟨false, Backend.openai, .ok none, none⟩ 0
      "v" "en" false true emptyCache emptyFail none rfl rfl rfl rfl rfl⟩

/-- C9: forcing STT does not bypass the caches.  With `forceSTT = true`,
(i) a fresh (non-empty) success-cache entry is returned as-is — for every
environment, so no STT backend is consulted and neither cache changes;
(ii) with no fresh success hit, an active failure-cache entry yields the
throttled 429 response carrying the remaining cooldown, again for every
environment. -/
theorem c9_force_stt_respects_caches :
    (∀ (env : RouteEnv) (now : ℚ) (vid lang : String) (dt sf : Bool)
       (cache : CacheMap) (fail : FailMap) (ts : ℚ) (d : List Seg),
       cache (vid, lang, dt) = some (ts, d) → now - ts ≤ CACHE_TTL_SECONDS →
       d ≠ [] →
       transcript env now vid lang dt sf true cache fail = (.ok d, cache, fail)) ∧
    (∀ (env : RouteEnv) (now : ℚ) (vid lang : String) (dt sf : Bool)
       (cache : CacheMap) (fail : FailMap) (ts : ℚ) (r : ℤ),
       listTruthy (cache_get cache vid lang dt now).1 = false →
       fail (vid, lang, dt) = some (ts, r) → now - ts ≤ (r : ℚ) →
       transcript env now vid lang dt sf true cache fail
         = (.err 429 (some (max 1 (⌊(r : ℚ) - (now - ts)⌋.toNat))),
            (cache_get cache vid lang dt now).2, fail)) := by
  constructor
  · intro env now vid lang dt sf cache fail ts d hkey hle hd
    have hget : cache_get cache vid lang dt now = (some d, cache) := by
      simp [cache_get, hkey, not_lt.2 hle]
    have htr : listTruthy (some d) = true := by
      simp [listTruthy, List.isEmpty_iff, hd]
    simp [transcript, hget, htr]
  · intro env now vid lang dt sf cache fail ts r hmiss hkey hle
    have hfr : fail_cache_get fail vid lang dt now
        = (some (max 1 (⌊(r : ℚ) - (now - ts)⌋.toNat)), fail) := by
      simp [fail_cache_get, hkey, not_lt.2 hle]
    simp [transcript, hmiss, hfr]

/-- Closed instance of `c9_force_stt_respects_caches`: a forced-STT request
against a fresh cache entry returns it untouched, and against an active
cooldown returns 429 with the remaining time. -/
theorem c9_force_stt_respects_caches_wit :
    (transcript ⟨true, Backend.openai, .ok none, some [⟨"stt", 0, 1⟩]⟩ 10
        "v" "en" false true true
        (cache_set emptyCache "v" "en" false 0 [⟨"hit", 0, 1⟩]) emptyFail
      = (.ok [⟨"hit", 0, 1⟩],
         cache_set emptyCache "v" "en" false 0 [⟨"hit", 0, 1⟩], emptyFail)) ∧
    (transcript ⟨true, Backend.openai, .ok none, some [⟨"stt", 0, 1⟩]⟩ 10
        "v" "en" false true true
        emptyCache (fail_cache_set emptyFail "v" "en" false 0 (some 120))
      = (.err 429 (some 110), (cache_get emptyCache "v" "en" false 10).2,
         fail_cache_set emptyFail "v" "en" false 0 (some 120))) := by
  constructor
  · exact c9_force_stt_respects_caches.1
      ⟨true, Backend.openai, .ok none, some [⟨"stt", 0, 1⟩]⟩ 10 "v" "en" false true
      (cache_set emptyCache "v" "en" false 0 [⟨"hit", 0, 1⟩]) emptyFail 0
      [⟨"hit", 0, 1⟩] rfl (by norm_num [CACHE_TTL_SECONDS]) (by decide)
  · have h := c9_force_stt_respects_caches.2
      ⟨true, Backend.openai, .ok none, some [⟨"stt", 0, 1⟩]⟩ 10 "v" "en" false true
      emptyCache (fail_cache_set emptyFail "v" "en" false 0 (some 120)) 0 120
      rfl (by simp [fail_cache_set]) (by norm_num)
    rw [h]
    norm_num
    rfl

lemma cache_get_snd_cases (cache : CacheMap) (vid lang : String) (dt : Bool)
    (now : ℚ) (k : ReqKey) :
    (cache_get cache vid lang dt now).2 k = cache k ∨
      (cache_get cache vid lang dt now).2 k = none := by
  cases h : cache (vid, lang, dt) with
  | none => left; simp [cache_get, h]
  | some e =>
    obtain ⟨ts, data⟩ := e
    by_cases ht : now - ts > CACHE_TTL_SECONDS
    · by_cases hk : k = (vid, lang, dt)
      · right; simp [cache_get, h, ht, hk]
      · left; simp [cache_get, h, ht, hk]
    · left; simp [cache_get, h, ht]

lemma listTruthy_none : listTruthy none = false := rfl

lemma listTruthy_getD (o : Option (List Seg)) (h : listTruthy o = true) :
    o.getD [] ≠ [] := by
  cases o with
  | none => simp [listTruthy] at h
  | some l =>
    cases l with
    | nil => simp [listTruthy] at h
    | cons a t => simp

lemma cache_set_cases (c : CacheMap) (vid lang : String) (dt : Bool) (now : ℚ)
    (d : List Seg) (k : ReqKey) :
    cache_set c vid lang dt now d k = c k ∨
      cache_set c vid lang dt now d k = some (now, d) := by
  unfold cache_set
  by_cases hk : k = (vid, lang, dt)
  · right; simp [hk]
  · left; simp [hk]

/-- C10: the route only ever writes non-empty segment lists into the
success cache — after any request, every key either still carries its old
entry, was evicted, or carries a fresh non-empty entry stamped with the
request time — and every successful (non-error) response of the route is a
non-empty list: an empty fetch or STT result is never cached and never
returned as success. -/
theorem c10_route_nonempty_invariant (env : RouteEnv) (now : ℚ)
    (vid lang : String) (dt sf fs : Bool) (cache : CacheMap) (fail : FailMap) :
    (∀ segs, (transcript env now vid lang dt sf fs cache fail).1 = .ok segs →
       segs ≠ []) ∧
    (∀ k, (transcript env now vid lang dt sf fs cache fail).2.1 k = cache k ∨
       (transcript env now vid lang dt sf fs cache fail).2.1 k = none ∨
       ∃ d, (transcript env now vid lang dt sf fs cache fail).2.1 k
           = some (now, d) ∧ d ≠ []) := by
  have hgotOk : ∀ k : ReqKey,
      (cache_get cache vid lang dt now).2 k = cache k ∨
      (cache_get cache vid lang dt now).2 k = none ∨
      ∃ d, (cache_get cache vid lang dt now).2 k = some (now, d) ∧ d ≠ [] := by
    intro k
    rcases cache_get_snd_cases cache vid lang dt now k with h | h
    · exact Or.inl h
    · exact Or.inr (Or.inl h)
  have hset : ∀ (d : List Seg), d ≠ [] → ∀ k : ReqKey,
      cache_set (cache_get cache vid lang dt now).2 vid lang dt now d k = cache k ∨
      cache_set (cache_get cache vid lang dt now).2 vid lang dt now d k = none ∨
      ∃ d2, cache_set (cache_get cache vid lang dt now).2 vid lang dt now d k
          = some (now, d2) ∧ d2 ≠ [] := by
    intro d hd k
    rcases cache_set_cases (cache_get cache vid lang dt now).2 vid lang dt now d k
      with h | h
    · rw [h]
      rcases cache_get_snd_cases cache vid lang dt now k with h2 | h2
      · exact Or.inl h2
      · exact Or.inr (Or.inl h2)
    · exact Or.inr (Or.inr ⟨d, h, hd⟩)
  suffices hS : ∃ r c2 f2, transcript env now vid lang dt sf fs cache fail
      = (r, c2, f2) ∧ (∀ segs, r = .ok segs → segs ≠ []) ∧
      (∀ k, c2 k = cache k ∨ c2 k = none ∨ ∃ d, c2 k = some (now, d) ∧ d ≠ []) by
    obtain ⟨r, c2, f2, hT, hrsp, hc⟩ := hS
    constructor
    · intro segs hs
      rw [hT] at hs
      exact hrsp segs hs
    · intro k
      rw [hT]
      exact hc k
  by_cases h1 : listTruthy (cache_get cache vid lang dt now).1 = true
  · have hT : transcript env now vid lang dt sf fs cache fail
        = (Resp.ok ((cache_get cache vid lang dt now).1.getD []),
           (cache_get cache vid lang dt now).2, fail) := by
      simp [transcript, h1]
    refine ⟨_, _, _, hT, ?_, hgotOk⟩
    intro segs hs
    injection hs with h2
    rw [← h2]
    exact listTruthy_getD _ h1
  · cases hfr : (fail_cache_get fail vid lang dt now).1 with
    | some rem =>
      have hT : transcript env now vid lang dt sf fs cache fail
          = (Resp.err 429 (some rem), (cache_get cache vid lang dt now).2,
             (fail_cache_get fail vid lang dt now).2) := by
        simp [transcript, h1, hfr]
      exact ⟨_, _, _, hT, fun segs hs => Resp.noConfusion hs, hgotOk⟩
    | none =>
      by_cases hfs : fs = true
      · by_cases hen : env.enable_stt = true
        · by_cases hstt : listTruthy (sttResult env) = true
          · have hT : transcript env now vid lang dt sf fs cache fail
                = (Resp.ok ((sttResult env).getD []),
                   cache_set (cache_get cache vid lang dt now).2 vid lang dt now
                     ((sttResult env).getD []),
                   (fail_cache_get fail vid lang dt now).2) := by
              simp [transcript, h1, hfr, hfs, hen, hstt]
            refine ⟨_, _, _, hT, ?_, hset _ (listTruthy_getD _ hstt)⟩
            intro segs hs
            injection hs with h2
            rw [← h2]
            exact listTruthy_getD _ hstt
          · have hT : transcript env now vid lang dt sf fs cache fail
                = (Resp.err 502 none, (cache_get cache vid lang dt now).2,
                   (fail_cache_get fail vid lang dt now).2) := by
              simp [transcript, h1, hfr, hfs, hen, hstt]
            exact ⟨_, _, _, hT, fun segs hs => Resp.noConfusion hs, hgotOk⟩
        · have hT : transcript env now vid lang dt sf fs cache fail
              = (Resp.err 400 none, (cache_get cache vid lang dt now).2,
                 (fail_cache_get fail vid lang dt now).2) := by
            simp [transcript, h1, hfr, hfs, hen]
          exact ⟨_, _, _, hT, fun segs hs => Resp.noConfusion hs, hgotOk⟩
      · cases hsel : env.selector with
        | error u =>
          by_cases hb : (sf && env.enable_stt) = true
          · by_cases hstt : listTruthy (sttResult env) = true
            · have hT : transcript env now vid lang dt sf fs cache fail
                  = (Resp.ok ((sttResult env).getD []),
                     cache_set (cache_get cache vid lang dt now).2 vid lang dt now
                       ((sttResult env).getD []),
                     (fail_cache_get fail vid lang dt now).2) := by
                simp [transcript, h1, hfr, hfs, hsel, (Bool.and_eq_true_iff.1 hb).1, (Bool.and_eq_true_iff.1 hb).2, hstt]
              refine ⟨_, _, _, hT, ?_, hset _ (listTruthy_getD _ hstt)⟩
              intro segs hs
              injection hs with h2
              rw [← h2]
              exact listTruthy_getD _ hstt
            · have hT : transcript env now vid lang dt sf fs cache fail
                  = (Resp.err 429 (some 120), (cache_get cache vid lang dt now).2,
                     fail_cache_set (fail_cache_get fail vid lang dt now).2
                       vid lang dt now (some 120)) := by
                simp [transcript, h1, hfr, hfs, hsel, (Bool.and_eq_true_iff.1 hb).1, (Bool.and_eq_true_iff.1 hb).2, hstt]
              exact ⟨_, _, _, hT, fun segs hs => Resp.noConfusion hs, hgotOk⟩
          · have hT : transcript env now vid lang dt sf fs cache fail
                = (Resp.err 429 (some 120), (cache_get cache vid lang dt now).2,
                   fail_cache_set (fail_cache_get fail vid lang dt now).2
                     vid lang dt now (some 120)) := by
              have hb2 : ¬ (sf = true ∧ env.enable_stt = true) := by
                simpa [Bool.and_eq_true] using hb
              simp [transcript, h1, hfr, hfs, hsel, hb2, listTruthy_none]
            exact ⟨_, _, _, hT, fun segs hs => Resp.noConfusion hs, hgotOk⟩
        | ok dataO =>
          by_cases hdt2 : listTruthy dataO = true
          · have hT : transcript env now vid lang dt sf fs cache fail
                = (Resp.ok (dataO.getD []),
                   cache_set (cache_get cache vid lang dt now).2 vid lang dt now
                     (dataO.getD []),
                   (fail_cache_get fail vid lang dt now).2) := by
              simp [transcript, h1, hfr, hfs, hsel, hdt2]
            refine ⟨_, _, _, hT, ?_, hset _ (listTruthy_getD _ hdt2)⟩
            intro segs hs
            injection hs with h2
            rw [← h2]
            exact listTruthy_getD _ hdt2
          · by_cases hb : (sf && env.enable_stt) = true
            · by_cases hstt : listTruthy (sttResult env) = true
              · have hT : transcript env now vid lang dt sf fs cache fail
                    = (Resp.ok ((sttResult env).getD []),
                       cache_set (cache_get cache vid lang dt now).2 vid lang dt
                         now ((sttResult env).getD []),
                       (fail_cache_get fail vid lang dt now).2) := by
                  simp [transcript, h1, hfr, hfs, hsel, hdt2,
                    (Bool.and_eq_true_iff.1 hb).1, (Bool.and_eq_true_iff.1 hb).2, hstt]
                refine ⟨_, _, _, hT, ?_, hset _ (listTruthy_getD _ hstt)⟩
                intro segs hs
                injection hs with h2
                rw [← h2]
                exact listTruthy_getD _ hstt
              · have hT : transcript env now vid lang dt sf fs cache fail
                    = (Resp.err 429 (some 300),
                       (cache_get cache vid lang dt now).2,
                       fail_cache_set (fail_cache_get fail vid lang dt now).2
                         vid lang dt now (some 300)) := by
                  simp [transcript, h1, hfr, hfs, hsel, hdt2,
                    (Bool.and_eq_true_iff.1 hb).1, (Bool.and_eq_true_iff.1 hb).2, hstt]
                exact ⟨_, _, _, hT, fun segs hs => Resp.noConfusion hs, hgotOk⟩
            · have hT : transcript env now vid lang dt sf fs cache fail
                  = (Resp.err 429 (some 300), (cache_get cache vid lang dt now).2,
                     fail_cache_set (fail_cache_get fail vid lang dt now).2
                       vid lang dt now (some 300)) := by
                have hb2 : ¬ (sf = true ∧ env.enable_stt = true) := by
                  simpa [Bool.and_eq_true] using hb
                simp [transcript, h1, hfr, hfs, hsel, hdt2, hb2, listTruthy_none]
              exact ⟨_, _, _, hT, fun segs hs => Resp.noConfusion hs, hgotOk⟩

/-- Closed instance of `c10_route_nonempty_invariant`: a request whose
selector returns one caption segment yields that non-empty list, and the
key it cached satisfies the write invariant. -/
theorem c10_route_nonempty_invariant_wit :
    (transcript ⟨true, Backend.openai, .ok (some [⟨"cap", 0, 1⟩]), none⟩ 0
        "v" "en" false true false emptyCache emptyFail).1 = .ok [⟨"cap", 0, 1⟩] ∧
    ([⟨"cap", 0, 1⟩] : List Seg) ≠ [] ∧
    ((transcript ⟨true, Backend.openai, .ok (some [⟨"cap", 0, 1⟩]), none⟩ 0
        "v" "en" false true false emptyCache emptyFail).2.1 ("v", "en", false)
        = emptyCache ("v", "en", false) ∨
     (transcript ⟨true, Backend.openai, .ok (some [⟨"cap", 0, 1⟩]), none⟩ 0
        "v" "en" false true false emptyCache emptyFail).2.1 ("v", "en", false)
        = none ∨
     ∃ d, (transcript ⟨true, Backend.openai, .ok (some [⟨"cap", 0, 1⟩]), none⟩ 0
        "v" "en" false true false emptyCache emptyFail).2.1 ("v", "en", false)
        = some (0, d) ∧ d ≠ []) := by
  refine ⟨rfl, ?_, ?_⟩
  · exact (c10_route_nonempty_invariant
      ⟨true, Backend.openai, .ok (some [⟨"cap", 0, 1⟩]), none⟩ 0 "v" "en" false
      true false emptyCache emptyFail).1 [⟨"cap", 0, 1⟩] rfl
  · exact (c10_route_nonempty_invariant
      ⟨true, Backend.openai, .ok (some [⟨"cap", 0, 1⟩]), none⟩ 0 "v" "en" false
      true false emptyCache emptyFail).2 ("v", "en", false)

/-- Closed instance of `c1_retry_executor`: four 429 failures then a
success returns the data; a permanent rate limit consumes exactly 5
attempts; an unrecognized error propagates immediately. -/
theorem c1_retry_executor_wit :
    fetch_with_retry
        (fun i => if i < 4 then .error "HTTP Error 429" else .ok [⟨"ok", 0, 1⟩]) 5
      = .ok (some [⟨"ok", 0, 1⟩]) ∧
    fetch_attempts (fun _ => .error "too many requests") 5 = 5 ∧
    fetch_with_retry (fun _ => .error "boom") 5 = .error "boom" := by
  refine ⟨?_, ?_, ?_⟩
  · exact (c1_retry_executor.1
      (fun i => if i < 4 then .error "HTTP Error 429" else .ok [⟨"ok", 0, 1⟩])
      [⟨"ok", 0, 1⟩] (by decide) rfl (by decide)).1
  · exact (c1_retry_executor.2.1 (fun _ => .error "too many requests")
      (by decide)).1
  · exact (c1_retry_executor.2.2 (fun _ => .error "boom") "boom" rfl (by decide)).1
